import Mathlib

/-!
Shallow embedding of the Healthcare-Management-System patient service
(`src/patient_service/`): the data model (`models.py`), configuration
constants (`config.py`), the audit helper (`utils.py`), the patient CRUD
routes (`routes.py`) and the auth routes (`auth_routes.py`).

Conventions of the embedding:
* Timestamps are `Nat` (an abstract clock value `now` is passed to each
  operation, standing for `datetime.utcnow()`).
* The SQLAlchemy session/commit discipline is made explicit: a route
  either returns an error together with the unchanged database (an early
  `return` before `db.session.commit()`; the request-scoped session is
  rolled back at teardown, so nothing persists), or commits a new
  database state.
* Password hashing (bcrypt) is opaque: `hash_password` is modelled as an
  injective tagging function and `check_password` as verification against
  it, which is the contract the code relies on.
* JSON request fields arrive as `Option` values (absent key = `none`);
  the `age` field may be a JSON number or a JSON string, as in the code,
  where `data.get('age')` feeds both a Python truthiness test and
  `int(age)`.
-/

namespace PatientService

/-- A JSON value supplied for the `age` field: a number or a string. -/
inductive AgeVal where
  | int : Int → AgeVal
  | str : String → AgeVal
deriving DecidableEq, Repr

/-- Python truthiness of an optional string request field:
`None` and `""` are falsy. -/
def truthyOptStr : Option String → Bool
  | none => false
  | some s => s ≠ ""

/-- Python truthiness of the optional `age` request field:
`None`, `0` and `""` are falsy. -/
def truthyOptAge : Option AgeVal → Bool
  | none => false
  | some (.int n) => n ≠ 0
  | some (.str s) => s ≠ ""

/-- Python whitespace, as stripped by `str.strip()`. -/
def isPySpace (c : Char) : Bool :=
  c == ' ' || c == '\t' || c == '\n' || c == '\r' || c == '\x0b' || c == '\x0c'

/-- Python `str.strip()`: remove leading and trailing whitespace. -/
def pyStrip (s : String) : String :=
  ⟨((s.data.dropWhile isPySpace).reverse.dropWhile isPySpace).reverse⟩

/-- Python `str.lower()` (ASCII case mapping, which is all the code
relies on). -/
def pyLower (s : String) : String := ⟨s.data.map Char.toLower⟩

/-- Python `int(s)` on a string: strips whitespace, accepts an optional
sign followed by one or more digits; raises `ValueError` (here `none`)
otherwise. -/
def parseIntStr (s : String) : Option Int :=
  match (pyStrip s).data with
  | [] => none
  | c :: rest =>
    let neg := c == '-'
    let digits := if c == '-' || c == '+' then rest else c :: rest
    if !digits.isEmpty && digits.all Char.isDigit then
      let n : Nat := digits.foldl (fun acc d => acc * 10 + (d.toNat - 48)) 0
      some (if neg then -(n : Int) else (n : Int))
    else none

/-- Python `int(age)` on the JSON `age` value. -/
def pyIntVal : AgeVal → Option Int
  | .int n => some n
  | .str s => parseIntStr s

/-- `needle` occurs as a contiguous substring of `hay` (character lists). -/
def listIsInfix (needle : List Char) : List Char → Bool
  | [] => needle.isEmpty
  | c :: t => needle.isPrefixOf (c :: t) || listIsInfix needle t

/-! ## config.py -/

def ALLOWED_ROLES : List String := ["admin", "doctor", "nurse", "receptionist", "staff"]

def MIN_PASSWORD_LENGTH : Nat := 6

def MIN_PATIENT_AGE : Int := 0

def MAX_PATIENT_AGE : Int := 150

def MSG_USER_REGISTERED : String := "User registered successfully"

def MSG_LOGIN_SUCCESSFUL : String := "Login successful"

def MSG_PATIENT_CREATED : String := "Patient created successfully"

def MSG_PATIENT_UPDATED : String := "Patient updated successfully"

def MSG_PATIENT_DELETED : String := "Patient deleted successfully"

def ERR_MISSING_FIELDS : String := "All required fields must be provided"

def ERR_INVALID_EMAIL : String := "Invalid email format"

def ERR_INVALID_PASSWORD : String :=
  "Password must be at least " ++ toString MIN_PASSWORD_LENGTH ++ " characters long"

def ERR_INVALID_ROLE : String :=
  "Invalid role. Allowed roles: " ++ String.intercalate ", " ALLOWED_ROLES

def ERR_USERNAME_EXISTS : String := "Username already exists"

def ERR_EMAIL_EXISTS : String := "Email already registered"

def ERR_INVALID_CREDENTIALS : String := "Invalid email or password"

def ERR_ACCOUNT_INACTIVE : String := "Account is inactive. Please contact administrator"

def ERR_PATIENT_NOT_FOUND : String := "Patient not found"

/-- Character class `[a-zA-Z0-9._%+-]` of the local part of
`EMAIL_REGEX_PATTERN`. -/
def isLocalChar (c : Char) : Bool :=
  c.isAlphanum || c == '.' || c == '_' || c == '%' || c == '+' || c == '-'

/-- Character class `[a-zA-Z0-9.-]` of the domain part of
`EMAIL_REGEX_PATTERN`. -/
def isDomainChar (c : Char) : Bool :=
  c.isAlphanum || c == '.' || c == '-'

/-- Split a character list at every occurrence of `sep` (Python
`str.split(sep)` for a one-character separator). -/
def splitOnChar (sep : Char) : List Char → List (List Char)
  | [] => [[]]
  | c :: t =>
    if c == sep then [] :: splitOnChar sep t
    else
      match splitOnChar sep t with
      | h :: r => (c :: h) :: r
      | [] => [[c]]

/-- Join character lists with `.` between them (inverse of splitting a
domain on dots). -/
def joinDots : List (List Char) → List Char
  | [] => []
  | [x] => x
  | x :: r => x ++ '.' :: joinDots r

/-- `auth_routes.is_valid_email`: `re.match` of the anchored pattern
`[a-zA-Z0-9._%+-]+@[a-zA-Z0-9.-]+\.[a-zA-Z]\x7b2,\x7d$`: a nonempty local
part, one `@`, a nonempty domain head, a final dot, and an alphabetic
top-level domain of length at least 2. -/
def is_valid_email (email : String) : Bool :=
  match splitOnChar '@' email.data with
  | [localPart, domain] =>
    match (splitOnChar '.' domain).reverse with
    | tld :: headParts@(_ :: _) =>
      let head := joinDots headParts.reverse
      !localPart.isEmpty && localPart.all isLocalChar &&
      !head.isEmpty && head.all isDomainChar &&
      decide (2 ≤ tld.length) && tld.all Char.isAlpha
    | _ => false
  | _ => false

/-! ## models.py -/

/-- `models.Patient`: a patient row with soft-delete and audit fields. -/
structure Patient where
  id : Nat
  name : String
  age : Int
  contact : String
  is_deleted : Bool
  deleted_at : Option Nat
  deleted_by : Option String
  created_at : Nat
  created_by : Option String
  updated_at : Nat
  updated_by : Option String
deriving DecidableEq, Repr

/-- `models.User`: a user row. `password` holds the bcrypt digest. -/
structure User where
  id : Nat
  full_name : String
  email : String
  username : String
  password : String
  role : String
  phone : Option String
  is_active : Bool
deriving DecidableEq, Repr

/-- `User.hash_password`: bcrypt treated as an opaque injective digest. -/
def hash_password (plain : String) : String := "bcrypt$" ++ plain

/-- `User.check_password`: bcrypt verification succeeds exactly when the
plain password is the one that was hashed. -/
def check_password (hashed plain : String) : Bool := hashed == hash_password plain

/-- `models.MedicalRecord`: a medical-record row. -/
structure MedicalRecord where
  id : Nat
  patient_id : Nat
  diagnosis : String
  prescription : Option String
  notes : Option String
  visit_date : Nat
  created_at : Nat
  created_by : Option String
deriving DecidableEq, Repr

/-- The old/new value of one field in an audit delta. -/
inductive FieldVal where
  | s : String → FieldVal
  | i : Int → FieldVal
deriving DecidableEq, Repr

/-- One entry of the `changes` delta map built by `update_patient`. -/
structure Change where
  field : String
  old : FieldVal
  new : FieldVal
deriving DecidableEq, Repr

/-- The structured payload serialized into `AuditLog.changes` at each
`log_audit` call site (the JSON encoding itself is kept abstract). -/
inductive AuditChanges where
  | snapshot : String → Int → String → AuditChanges
  | delta : List Change → AuditChanges
  | deletedAt : Nat → AuditChanges
  | restoredAt : Nat → AuditChanges
  | recSnapshot : Nat → String → AuditChanges
deriving DecidableEq, Repr

/-- `models.AuditLog`: an audit-trail row. -/
structure AuditLog where
  id : Nat
  entity_type : String
  entity_id : Nat
  action : String
  user_email : String
  timestamp : Nat
  changes : Option AuditChanges
deriving DecidableEq, Repr

/-- The persistent database state: the four tables plus autoincrement
counters. -/
structure DB where
  patients : List Patient
  users : List User
  records : List MedicalRecord
  audit_logs : List AuditLog
  next_patient_id : Nat
  next_user_id : Nat
  next_audit_id : Nat
deriving DecidableEq, Repr

/-- An error response: HTTP status code and the `error` message. -/
structure ErrResp where
  status : Nat
  error : String
deriving DecidableEq, Repr

/-! ## utils.py -/

/-- The body of `utils.log_audit`'s `try` block: constructing the
`AuditLog` row, `db.session.add` and `db.session.commit`. The audit
store may fail (`fail = true` stands for any exception raised inside the
`try`); on failure nothing is persisted. -/
def logAuditAttempt (fail : Bool) (db : DB) (entity_type : String) (entity_id : Nat)
    (action : String) (user_email : String) (now : Nat) (changes : Option AuditChanges) :
    Except String DB :=
  if fail then .error "Failed to log audit"
  else .ok { db with
    audit_logs := db.audit_logs ++
      [{ id := db.next_audit_id, entity_type := entity_type, entity_id := entity_id,
         action := action, user_email := user_email, timestamp := now, changes := changes }],
    next_audit_id := db.next_audit_id + 1 }

/-- `utils.log_audit`: the whole body is wrapped in `try/except`; an
exception is swallowed (only a warning is printed), so the function
always returns to its caller, with the database as it was before the
attempted audit write. -/
def log_audit (fail : Bool) (db : DB) (entity_type : String) (entity_id : Nat)
    (action : String) (user_email : String) (now : Nat) (changes : Option AuditChanges) : DB :=
  match logAuditAttempt fail db entity_type entity_id action user_email now changes with
  | .ok db2 => db2
  | .error _ => db

/-! ## routes.py: create_patient -/

/-- The JSON body of `POST /patients`. -/
structure CreateReq where
  name : Option String
  age : Option AgeVal
  contact : Option String
deriving DecidableEq, Repr

/-- The `patient` object of a successful create response. -/
structure CreatedPatient where
  id : Nat
  name : String
  age : Int
  contact : String
  created_at : Nat
deriving DecidableEq, Repr

/-- `routes.create_patient`: presence check by Python truthiness, then
`int(age)` with the `[MIN_PATIENT_AGE, MAX_PATIENT_AGE]` range check,
then the trimmed-length checks on `name` and `contact`; on success the
row is committed, a CREATE audit entry is attempted, and the created
patient is returned. `auditFail` is the audit store's failure oracle. -/
def create_patient (current_user : String) (data : CreateReq) (db : DB) (now : Nat)
    (auditFail : Bool) : Except ErrResp CreatedPatient × DB :=
  if !truthyOptStr data.name || !truthyOptAge data.age || !truthyOptStr data.contact then
    (.error ⟨400, ERR_MISSING_FIELDS⟩, db)
  else
    match pyIntVal (data.age.getD (.int 0)) with
    | none => (.error ⟨400, "Age must be a valid number"⟩, db)
    | some age =>
      if age < MIN_PATIENT_AGE || age > MAX_PATIENT_AGE then
        (.error ⟨400, "Age must be between " ++ toString MIN_PATIENT_AGE ++ " and " ++
          toString MAX_PATIENT_AGE⟩, db)
      else
        let name := pyStrip (data.name.getD "")
        let contact := pyStrip (data.contact.getD "")
        if name.length < 2 then
          (.error ⟨400, "Name must be at least 2 characters long"⟩, db)
        else if contact.length < 9 then
          (.error ⟨400, "Contact number must be at least 9 digits"⟩, db)
        else
          let p : Patient :=
            { id := db.next_patient_id, name := name, age := age, contact := contact,
              is_deleted := false, deleted_at := none, deleted_by := none,
              created_at := now, created_by := some current_user,
              updated_at := now, updated_by := none }
          let db2 : DB := { db with patients := db.patients ++ [p],
                                    next_patient_id := db.next_patient_id + 1 }
          let db3 := log_audit auditFail db2 "patient" p.id "CREATE" current_user now
            (some (.snapshot p.name p.age p.contact))
          (.ok ⟨p.id, p.name, p.age, p.contact, p.created_at⟩, db3)

/-! ## auth_routes.py: register and login -/

/-- The JSON body of `POST /register`. -/
structure RegisterReq where
  full_name : Option String
  email : Option String
  username : Option String
  password : Option String
  role : Option String
  phone : Option String
deriving DecidableEq, Repr

/-- The `user` object of a successful register response. -/
structure RegisteredUser where
  id : Nat
  full_name : String
  email : String
  username : String
  role : String
deriving DecidableEq, Repr

/-- `auth_routes.register`: required-field truthiness, email format,
password length, allowed role, then the two sequential duplicate
pre-checks (`filter_by(username=username)` and `filter_by(email=email)`
— the latter compares the raw submitted email against stored rows).
The insert stores `email.lower()` and `role.lower()`; `db.session.commit()`
raises (unique constraints on `users.email` and `users.username`) and is
rolled back when the inserted row collides with an existing one. -/
def register (data : RegisterReq) (db : DB) : Except ErrResp RegisteredUser × DB :=
  if !truthyOptStr data.full_name || !truthyOptStr data.email || !truthyOptStr data.username
      || !truthyOptStr data.password || !truthyOptStr data.role then
    (.error ⟨400, ERR_MISSING_FIELDS⟩, db)
  else
    let email := data.email.getD ""
    let username := data.username.getD ""
    let password := data.password.getD ""
    let role := data.role.getD ""
    if !is_valid_email email then
      (.error ⟨400, ERR_INVALID_EMAIL⟩, db)
    else if password.length < MIN_PASSWORD_LENGTH then
      (.error ⟨400, ERR_INVALID_PASSWORD⟩, db)
    else if !ALLOWED_ROLES.contains (pyLower role) then
      (.error ⟨400, ERR_INVALID_ROLE⟩, db)
    else if (db.users.find? (fun u => u.username == username)).isSome then
      (.error ⟨400, ERR_USERNAME_EXISTS⟩, db)
    else if (db.users.find? (fun u => u.email == email)).isSome then
      (.error ⟨400, ERR_EMAIL_EXISTS⟩, db)
    else
      let new_user : User :=
        { id := db.next_user_id, full_name := data.full_name.getD "",
          email := pyLower email, username := username,
          password := hash_password password, role := pyLower role,
          phone := data.phone, is_active := true }
      if db.users.any (fun u => u.email == new_user.email || u.username == new_user.username) then
        (.error ⟨500, "Failed to register user. Please try again."⟩, db)
      else
        (.ok ⟨new_user.id, new_user.full_name, new_user.email, new_user.username, new_user.role⟩,
         { db with users := db.users ++ [new_user], next_user_id := db.next_user_id + 1 })

/-- The JSON body of `POST /login`. -/
structure LoginReq where
  email : Option String
  password : Option String
deriving DecidableEq, Repr

/-- A successful login response: the token is opaque, bound to the
user's email. -/
structure LoginPayload where
  token_identity : String
  user_id : Nat
  user_email : String
  user_role : String
deriving DecidableEq, Repr

/-- `auth_routes.login`: required fields, email format, lookup by
lower-cased email, credentials check (`not user or not check_password`)
**before** the `is_active` check. Read-only: the database is unchanged. -/
def login (data : LoginReq) (db : DB) : Except ErrResp LoginPayload :=
  if !truthyOptStr data.email || !truthyOptStr data.password then
    .error ⟨400, ERR_MISSING_FIELDS⟩
  else
    let email := data.email.getD ""
    let password := data.password.getD ""
    if !is_valid_email email then
      .error ⟨400, ERR_INVALID_EMAIL⟩
    else
      match db.users.find? (fun u => u.email == pyLower email) with
      | none => .error ⟨401, ERR_INVALID_CREDENTIALS⟩
      | some user =>
        if !check_password user.password password then
          .error ⟨401, ERR_INVALID_CREDENTIALS⟩
        else if !user.is_active then
          .error ⟨401, ERR_ACCOUNT_INACTIVE⟩
        else
          .ok ⟨user.email, user.id, user.email, user.role⟩

/-! ## routes.py: listing and lookup -/

/-- One element of the `patients` array returned by `GET /patients`. -/
structure PatientListItem where
  id : Nat
  name : String
  age : Int
  contact : String
  created_at : Nat
  is_deleted : Bool
deriving DecidableEq, Repr

/-- Projection of a row to its `GET /patients` list item. -/
def toListItem (p : Patient) : PatientListItem :=
  ⟨p.id, p.name, p.age, p.contact, p.created_at, p.is_deleted⟩

/-- The `pagination` object returned by `GET /patients`. -/
structure PaginationMeta where
  page : Nat
  per_page : Nat
  total_pages : Nat
  total_items : Nat
  has_next : Bool
  has_prev : Bool
deriving DecidableEq, Repr

/-- `routes.get_patients`: `per_page` clamped to 100, soft-deleted rows
filtered out unless `include_deleted`, case-insensitive substring search
on `name` (`ilike`), then pagination (`paginate` with `error_out=False`
treats a page below 1 as page 1). Read-only. -/
def get_patients (db : DB) (page per_page : Nat) (search : String)
    (include_deleted : Bool) : List PatientListItem × PaginationMeta :=
  let pp := min per_page 100
  let q0 := if include_deleted then db.patients
            else db.patients.filter (fun p => p.is_deleted == false)
  let q := if search == "" then q0
           else q0.filter (fun p => listIsInfix (pyLower search).data (pyLower p.name).data)
  let pg := max page 1
  let items := (q.drop ((pg - 1) * pp)).take pp
  let pages := (q.length + pp - 1) / pp
  (items.map toListItem,
   ⟨pg, pp, pages, q.length, decide (pg < pages), decide (1 < pg)⟩)

/-- The body of a successful `GET /patients/<id>` response. -/
structure PatientDetail where
  id : Nat
  name : String
  age : Int
  contact : String
  created_at : Nat
  created_by : Option String
  updated_at : Nat
  updated_by : Option String
deriving DecidableEq, Repr

/-- `routes.get_patient`: `filter_by(id=id, is_deleted=False).first()`;
404 when no such row. Read-only. -/
def get_patient (db : DB) (id : Nat) : Except ErrResp PatientDetail :=
  match db.patients.find? (fun p => p.id == id && p.is_deleted == false) with
  | none => .error ⟨404, ERR_PATIENT_NOT_FOUND⟩
  | some p => .ok ⟨p.id, p.name, p.age, p.contact, p.created_at, p.created_by,
                   p.updated_at, p.updated_by⟩

/-! ## routes.py: update_patient -/

/-- The JSON body of `PUT /patients/<id>`; `none` means the key is not
present in `data`. -/
structure UpdateReq where
  name : Option String
  age : Option AgeVal
  contact : Option String
deriving DecidableEq, Repr

/-- The `if 'name' in data:` block of `update_patient`, acting on the
in-session draft row and the `changes` delta accumulated so far. -/
def step_name (data : UpdateReq) : Patient × List Change → Except ErrResp (Patient × List Change)
  | (p, cs) =>
    match data.name with
    | none => .ok (p, cs)
    | some raw =>
      let name := pyStrip raw
      if name.length < 2 then .error ⟨400, "Name must be at least 2 characters long"⟩
      else if p.name ≠ name then
        .ok ({ p with name := name }, cs ++ [⟨"name", .s p.name, .s name⟩])
      else .ok (p, cs)

/-- The `if 'age' in data:` block of `update_patient`; a `ValueError`
from `int(data['age'])` is caught by the handler at the end of the route
and reported as `Invalid data format`. -/
def step_age (data : UpdateReq) : Patient × List Change → Except ErrResp (Patient × List Change)
  | (p, cs) =>
    match data.age with
    | none => .ok (p, cs)
    | some v =>
      match pyIntVal v with
      | none => .error ⟨400, "Invalid data format"⟩
      | some age =>
        if age < MIN_PATIENT_AGE || age > MAX_PATIENT_AGE then
          .error ⟨400, "Age must be between " ++ toString MIN_PATIENT_AGE ++ " and " ++
            toString MAX_PATIENT_AGE⟩
        else if p.age ≠ age then
          .ok ({ p with age := age }, cs ++ [⟨"age", .i p.age, .i age⟩])
        else .ok (p, cs)

/-- The `if 'contact' in data:` block of `update_patient`. -/
def step_contact (data : UpdateReq) : Patient × List Change → Except ErrResp (Patient × List Change)
  | (p, cs) =>
    match data.contact with
    | none => .ok (p, cs)
    | some raw =>
      let contact := pyStrip raw
      if contact.length < 9 then .error ⟨400, "Contact number must be at least 9 digits"⟩
      else if p.contact ≠ contact then
        .ok ({ p with contact := contact }, cs ++ [⟨"contact", .s p.contact, .s contact⟩])
      else .ok (p, cs)

/-- The three sequential per-field blocks of `update_patient`, starting
from the fetched row and an empty `changes` map. An error here is an
early `return` before `db.session.commit()`. -/
def update_fields (data : UpdateReq) (p : Patient) : Except ErrResp (Patient × List Change) :=
  step_name data (p, []) >>= step_age data >>= step_contact data

/-- The effect of the name block on the draft row: assign the stripped
name only when it differs from the current one (mirrors
`if patient.name != name: patient.name = name`). -/
def applyName (data : UpdateReq) (p : Patient) : Patient :=
  match data.name with
  | none => p
  | some n => if p.name = pyStrip n then p else { p with name := pyStrip n }

/-- The effect of the age block on the draft row. -/
def applyAge (data : UpdateReq) (p : Patient) : Patient :=
  match data.age with
  | none => p
  | some v =>
    match pyIntVal v with
    | none => p
    | some a => if p.age = a then p else { p with age := a }

/-- The effect of the contact block on the draft row. -/
def applyContact (data : UpdateReq) (p : Patient) : Patient :=
  match data.contact with
  | none => p
  | some c => if p.contact = pyStrip c then p else { p with contact := pyStrip c }

/-- The name block's contribution to the `changes` delta, given the
current value: one `old`/`new` pair when the name was submitted and its
stripped value differs, nothing otherwise. -/
def nameDelta (data : UpdateReq) (cur : String) : List Change :=
  match data.name with
  | none => []
  | some n => if cur = pyStrip n then [] else [⟨"name", .s cur, .s (pyStrip n)⟩]

/-- The age block's contribution to the `changes` delta. -/
def ageDelta (data : UpdateReq) (cur : Int) : List Change :=
  match data.age with
  | none => []
  | some v =>
    match pyIntVal v with
    | none => []
    | some a => if cur = a then [] else [⟨"age", .i cur, .i a⟩]

/-- The contact block's contribution to the `changes` delta. -/
def contactDelta (data : UpdateReq) (cur : String) : List Change :=
  match data.contact with
  | none => []
  | some c => if cur = pyStrip c then [] else [⟨"contact", .s cur, .s (pyStrip c)⟩]

/-- The `patient` object of a successful update response. -/
structure UpdatedPatient where
  id : Nat
  name : String
  age : Int
  contact : String
  updated_at : Nat
deriving DecidableEq, Repr

/-- Commit of a mutated patient row: the session's draft replaces the
row with that id. -/
def commitPatient (db : DB) (p : Patient) : DB :=
  { db with patients := db.patients.map (fun q => if q.id == p.id then p else q) }

/-- `routes.update_patient`: fetch with `is_deleted=False` (404 if
absent), apply the per-field validation/mutation blocks (any error
returns before commit, so the database is unchanged), always stamp
`updated_by`/`updated_at`, commit, and log an UPDATE audit entry only
when the delta is non-empty. -/
def update_patient (current_user : String) (id : Nat) (data : UpdateReq) (db : DB)
    (now : Nat) (auditFail : Bool) : Except ErrResp UpdatedPatient × DB :=
  match db.patients.find? (fun p => p.id == id && p.is_deleted == false) with
  | none => (.error ⟨404, ERR_PATIENT_NOT_FOUND⟩, db)
  | some p =>
    match update_fields data p with
    | .error e => (.error e, db)
    | .ok (pd, changes) =>
      let pf := { pd with updated_by := some current_user, updated_at := now }
      let db2 := commitPatient db pf
      let db3 := if changes.isEmpty then db2
                 else log_audit auditFail db2 "patient" pf.id "UPDATE" current_user now
                   (some (.delta changes))
      (.ok ⟨pf.id, pf.name, pf.age, pf.contact, pf.updated_at⟩, db3)

/-! ## routes.py: delete_patient and restore_patient -/

/-- `routes.delete_patient`: fetch with `is_deleted=False` (404 if
absent), set the three soft-delete fields, commit, log a DELETE audit
entry. -/
def delete_patient (current_user : String) (id : Nat) (db : DB) (now : Nat)
    (auditFail : Bool) : Except ErrResp String × DB :=
  match db.patients.find? (fun p => p.id == id && p.is_deleted == false) with
  | none => (.error ⟨404, ERR_PATIENT_NOT_FOUND⟩, db)
  | some p =>
    let pf := { p with is_deleted := true, deleted_at := some now,
                       deleted_by := some current_user }
    let db2 := commitPatient db pf
    let db3 := log_audit auditFail db2 "patient" pf.id "DELETE" current_user now
      (some (.deletedAt now))
    (.ok MSG_PATIENT_DELETED, db3)

/-- `routes.restore_patient`: fetch with `is_deleted=True` (404
"Patient not found or not deleted" if absent), clear the three
soft-delete fields, stamp `updated_by`/`updated_at`, commit, log a
RESTORE audit entry. -/
def restore_patient (current_user : String) (id : Nat) (db : DB) (now : Nat)
    (auditFail : Bool) : Except ErrResp String × DB :=
  match db.patients.find? (fun p => p.id == id && p.is_deleted == true) with
  | none => (.error ⟨404, "Patient not found or not deleted"⟩, db)
  | some p =>
    let pf := { p with is_deleted := false, deleted_at := none, deleted_by := none,
                       updated_by := some current_user, updated_at := now }
    let db2 := commitPatient db pf
    let db3 := log_audit auditFail db2 "patient" pf.id "RESTORE" current_user now
      (some (.restoredAt now))
    (.ok "Patient restored successfully", db3)

/-! ## routes.py: medical records and audit-log listing -/

/-- Insert into a list kept sorted by a descending `Nat` key. -/
def insertByKeyDesc (key : α → Nat) (x : α) : List α → List α
  | [] => [x]
  | y :: t => if key y < key x then x :: y :: t else y :: insertByKeyDesc key x t

/-- Sort by a descending `Nat` key (`order_by(... .desc())`). -/
def sortByKeyDesc (key : α → Nat) : List α → List α
  | [] => []
  | x :: t => insertByKeyDesc key x (sortByKeyDesc key t)

/-- One element of the `records` array of `GET .../medical-records`. -/
structure RecordItem where
  id : Nat
  diagnosis : String
  prescription : Option String
  notes : Option String
  visit_date : Nat
  created_by : Option String
deriving DecidableEq, Repr

/-- The body of a successful `GET .../medical-records` response. -/
structure RecordsPayload where
  patient_id : Nat
  patient_name : String
  records : List RecordItem
deriving DecidableEq, Repr

/-- `routes.get_medical_records`: patient fetched with
`is_deleted=False` (404 if absent), then that patient's records ordered
by `visit_date` descending. Read-only. -/
def get_medical_records (db : DB) (patient_id : Nat) : Except ErrResp RecordsPayload :=
  match db.patients.find? (fun p => p.id == patient_id && p.is_deleted == false) with
  | none => .error ⟨404, ERR_PATIENT_NOT_FOUND⟩
  | some p =>
    let recs := sortByKeyDesc (fun r => r.visit_date)
      (db.records.filter (fun r => r.patient_id == patient_id))
    .ok ⟨p.id, p.name,
         recs.map (fun r => ⟨r.id, r.diagnosis, r.prescription, r.notes, r.visit_date,
                             r.created_by⟩)⟩

/-- One element of the `audit_logs` array of `GET .../audit-logs`. -/
structure AuditItem where
  id : Nat
  action : String
  user_email : String
  timestamp : Nat
  changes : Option AuditChanges
deriving DecidableEq, Repr

/-- The body of a successful `GET .../audit-logs` response. -/
structure AuditPayload where
  patient_id : Nat
  audit_logs : List AuditItem
deriving DecidableEq, Repr

/-- `routes.get_patient_audit_logs`: the existence check is
`Patient.query.get(patient_id)` — a primary-key lookup with **no**
`is_deleted` filter — then the patient's audit entries ordered by
timestamp descending. Read-only. -/
def get_patient_audit_logs (db : DB) (patient_id : Nat) : Except ErrResp AuditPayload :=
  match db.patients.find? (fun p => p.id == patient_id) with
  | none => .error ⟨404, ERR_PATIENT_NOT_FOUND⟩
  | some _ =>
    let logs := sortByKeyDesc (fun l => l.timestamp)
      (db.audit_logs.filter (fun l => l.entity_type == "patient" && l.entity_id == patient_id))
    .ok ⟨patient_id,
         logs.map (fun l => ⟨l.id, l.action, l.user_email, l.timestamp, l.changes⟩)⟩

/-! ## Invariants and sample data -/

/-- The soft-delete field invariant of one patient row: `deleted_at` is
non-null iff `is_deleted` is true, and likewise `deleted_by`. -/
def Patient.delInv (p : Patient) : Prop :=
  (p.deleted_at ≠ none ↔ p.is_deleted = true) ∧ (p.deleted_by ≠ none ↔ p.is_deleted = true)

/-- The soft-delete invariant over the whole patient table. -/
def DB.delInv (db : DB) : Prop := ∀ p ∈ db.patients, p.delInv

/-- The empty database. -/
def emptyDb : DB := ⟨[], [], [], [], 1, 1, 1⟩

/-- A sample registered user (as `register` would store it). -/
def sampleUser : User :=
  ⟨1, "Alice Soto", "a@x.com", "alice", hash_password "secret1", "doctor", none, true⟩

/-- A database holding only `sampleUser`. -/
def sampleUserDb : DB := ⟨[], [sampleUser], [], [], 1, 2, 1⟩

/-- A database holding only `sampleUser` deactivated. -/
def inactiveUserDb : DB := ⟨[], [{ sampleUser with is_active := false }], [], [], 1, 2, 1⟩

/-- A sample active patient row. -/
def samplePatient : Patient :=
  ⟨1, "Jo Lee", 34, "0171234567", false, none, none, 3, some "doc@x.com", 3, none⟩

/-- A sample soft-deleted patient row. -/
def sampleDeleted : Patient :=
  ⟨2, "Ann Roe", 40, "0229876543", true, some 7, some "admin@x.com", 4, some "doc@x.com", 7,
   some "admin@x.com"⟩

/-- A database holding one active and one soft-deleted patient, plus one
audit entry for the deleted one. -/
def samplePatientsDb : DB :=
  ⟨[samplePatient, sampleDeleted], [], [],
   [⟨1, "patient", 2, "DELETE", "admin@x.com", 7, some (.deletedAt 7)⟩], 3, 1, 2⟩

end PatientService

namespace PatientService

/-! ## Helper lemmas -/

theorem log_audit_patients (fail : Bool) (db : DB) (et : String) (ei : Nat) (ac us : String)
    (now : Nat) (ch : Option AuditChanges) :
    (log_audit fail db et ei ac us now ch).patients = db.patients := by
  cases fail <;> rfl

theorem log_audit_users (fail : Bool) (db : DB) (et : String) (ei : Nat) (ac us : String)
    (now : Nat) (ch : Option AuditChanges) :
    (log_audit fail db et ei ac us now ch).users = db.users := by
  cases fail <;> rfl

theorem log_audit_records (fail : Bool) (db : DB) (et : String) (ei : Nat) (ac us : String)
    (now : Nat) (ch : Option AuditChanges) :
    (log_audit fail db et ei ac us now ch).records = db.records := by
  cases fail <;> rfl

theorem log_audit_false_eq (db : DB) (et : String) (ei : Nat) (ac us : String)
    (now : Nat) (ch : Option AuditChanges) :
    log_audit false db et ei ac us now ch =
      { db with audit_logs := db.audit_logs ++ [⟨db.next_audit_id, et, ei, ac, us, now, ch⟩],
                next_audit_id := db.next_audit_id + 1 } := rfl

theorem except_bind_ok {α β γ : Type} (a : Except γ α) (f : α → Except γ β) (r : β)
    (h : a >>= f = .ok r) : ∃ x, a = .ok x ∧ f x = .ok r := by
  cases a with
  | error e => exact Except.noConfusion h
  | ok x => exact ⟨x, rfl, h⟩

theorem step_name_fields (data : UpdateReq) (p : Patient) (cs : List Change)
    (r : Patient × List Change) (h : step_name data (p, cs) = .ok r) :
    r.1.is_deleted = p.is_deleted ∧ r.1.deleted_at = p.deleted_at ∧
    r.1.deleted_by = p.deleted_by ∧ r.1.id = p.id ∧ r.1.age = p.age ∧
    r.1.contact = p.contact ∧ r.1.created_at = p.created_at ∧
    r.1.created_by = p.created_by ∧ r.1.updated_at = p.updated_at ∧
    r.1.updated_by = p.updated_by := by
  unfold step_name at h
  rcases hn : data.name with _ | raw <;> rw [hn] at h
  · injection h with h
    subst h
    exact ⟨rfl, rfl, rfl, rfl, rfl, rfl, rfl, rfl, rfl, rfl⟩
  · try dsimp only at h
    split_ifs at h with h1 h2
    · injection h with h
      subst h
      exact ⟨rfl, rfl, rfl, rfl, rfl, rfl, rfl, rfl, rfl, rfl⟩
    · injection h with h
      subst h
      exact ⟨rfl, rfl, rfl, rfl, rfl, rfl, rfl, rfl, rfl, rfl⟩

theorem step_age_fields (data : UpdateReq) (p : Patient) (cs : List Change)
    (r : Patient × List Change) (h : step_age data (p, cs) = .ok r) :
    r.1.is_deleted = p.is_deleted ∧ r.1.deleted_at = p.deleted_at ∧
    r.1.deleted_by = p.deleted_by ∧ r.1.id = p.id ∧ r.1.name = p.name ∧
    r.1.contact = p.contact ∧ r.1.created_at = p.created_at ∧
    r.1.created_by = p.created_by ∧ r.1.updated_at = p.updated_at ∧
    r.1.updated_by = p.updated_by := by
  unfold step_age at h
  rcases hn : data.age with _ | v <;> rw [hn] at h
  · injection h with h
    subst h
    exact ⟨rfl, rfl, rfl, rfl, rfl, rfl, rfl, rfl, rfl, rfl⟩
  · try dsimp only at h
    rcases hv : pyIntVal v with _ | age <;> rw [hv] at h
    · cases h
    · try dsimp only at h
      split_ifs at h with h1 h2
      · injection h with h
        subst h
        exact ⟨rfl, rfl, rfl, rfl, rfl, rfl, rfl, rfl, rfl, rfl⟩
      · injection h with h
        subst h
        exact ⟨rfl, rfl, rfl, rfl, rfl, rfl, rfl, rfl, rfl, rfl⟩

theorem step_contact_fields (data : UpdateReq) (p : Patient) (cs : List Change)
    (r : Patient × List Change) (h : step_contact data (p, cs) = .ok r) :
    r.1.is_deleted = p.is_deleted ∧ r.1.deleted_at = p.deleted_at ∧
    r.1.deleted_by = p.deleted_by ∧ r.1.id = p.id ∧ r.1.name = p.name ∧
    r.1.age = p.age ∧ r.1.created_at = p.created_at ∧
    r.1.created_by = p.created_by ∧ r.1.updated_at = p.updated_at ∧
    r.1.updated_by = p.updated_by := by
  unfold step_contact at h
  rcases hn : data.contact with _ | raw <;> rw [hn] at h
  · injection h with h
    subst h
    exact ⟨rfl, rfl, rfl, rfl, rfl, rfl, rfl, rfl, rfl, rfl⟩
  · try dsimp only at h
    split_ifs at h with h1 h2
    · injection h with h
      subst h
      exact ⟨rfl, rfl, rfl, rfl, rfl, rfl, rfl, rfl, rfl, rfl⟩
    · injection h with h
      subst h
      exact ⟨rfl, rfl, rfl, rfl, rfl, rfl, rfl, rfl, rfl, rfl⟩

/-- `update_fields` never touches the soft-delete fields (nor id or the
creation stamps) of the row it mutates. -/
theorem update_fields_del (data : UpdateReq) (p : Patient) (r : Patient × List Change)
    (h : update_fields data p = .ok r) :
    r.1.is_deleted = p.is_deleted ∧ r.1.deleted_at = p.deleted_at ∧
    r.1.deleted_by = p.deleted_by ∧ r.1.id = p.id := by
  unfold update_fields at h
  obtain ⟨y, hy, hc⟩ := except_bind_ok _ _ _ h
  obtain ⟨x, hx, ha⟩ := except_bind_ok _ _ _ hy
  obtain ⟨n1, n2, n3, n4, -⟩ := step_name_fields data p [] x hx
  obtain ⟨a1, a2, a3, a4, -⟩ := step_age_fields data x.1 x.2 y ha
  obtain ⟨c1, c2, c3, c4, -⟩ := step_contact_fields data y.1 y.2 r hc
  exact ⟨by rw [c1, a1, n1], by rw [c2, a2, n2], by rw [c3, a3, n3], by rw [c4, a4, n4]⟩

/-- On success `create_patient` appends one fresh non-deleted row; on
any failure the patient table is untouched. -/
theorem create_patient_patients (cu : String) (data : CreateReq) (db : DB) (now : Nat)
    (af : Bool) :
    (create_patient cu data db now af).snd.patients = db.patients ∨
    ∃ nm ag ct,
      (create_patient cu data db now af).snd.patients = db.patients ++
        [⟨db.next_patient_id, nm, ag, ct, false, none, none, now, some cu, now, none⟩] := by
  unfold create_patient
  split
  · left; rfl
  · split
    · left; rfl
    · split
      · left; rfl
      · dsimp only
        split
        · left; rfl
        · split
          · left; rfl
          · right
            exact ⟨_, _, _, by rw [log_audit_patients]⟩

/-- Committing a row that satisfies the soft-delete invariant into a
table that satisfies it preserves the invariant. -/
theorem commit_delInv (db : DB) (hdb : db.delInv) (pf : Patient) (hpf : pf.delInv) :
    (commitPatient db pf).delInv := by
  intro q hq
  simp only [commitPatient] at hq
  obtain ⟨q0, hq0, rfl⟩ := List.mem_map.1 hq
  try dsimp only
  split
  · exact hpf
  · exact hdb q0 hq0

theorem mem_insertByKeyDesc {α : Type} (key : α → Nat) (x y : α) (l : List α) :
    y ∈ insertByKeyDesc key x l ↔ y = x ∨ y ∈ l := by
  induction l with
  | nil => simp [insertByKeyDesc]
  | cons a t ih =>
    unfold insertByKeyDesc
    split
    · simp
    · simp only [List.mem_cons, ih]
      tauto

theorem mem_sortByKeyDesc {α : Type} (key : α → Nat) (y : α) (l : List α) :
    y ∈ sortByKeyDesc key l ↔ y ∈ l := by
  induction l with
  | nil => simp [sortByKeyDesc]
  | cons a t ih => simp [sortByKeyDesc, mem_insertByKeyDesc, ih]

/-- The `filter_by(id=.., is_deleted=False)` lookup that `get_patient`,
`update_patient`, `delete_patient` and `get_medical_records` use misses
a soft-deleted row (ids being unique). -/
theorem find_active_none (db : DB) (p : Patient) (hmem : p ∈ db.patients)
    (hdel : p.is_deleted = true) (hids : (db.patients.map Patient.id).Nodup) :
    db.patients.find? (fun q => q.id == p.id && q.is_deleted == false) = none := by
  rw [List.find?_eq_none]
  intro x hx
  simp only [Bool.and_eq_true, beq_iff_eq, not_and]
  intro hxid hxdel
  have hxp : x = p := List.inj_on_of_nodup_map hids hx hmem hxid
  rw [hxp, hdel] at hxdel
  cases hxdel

/-- Every element of a list appears on some page of its pagination. -/
theorem mem_take_drop_cover {α : Type} (x : α) (l : List α) (pp : Nat) (hpp : 1 ≤ pp)
    (hx : x ∈ l) : ∃ pg, 1 ≤ pg ∧ x ∈ (l.drop ((pg - 1) * pp)).take pp := by
  obtain ⟨i, hi, hget⟩ := List.mem_iff_getElem.1 hx
  refine ⟨i / pp + 1, Nat.succ_le_succ (Nat.zero_le _), ?_⟩
  have hd : (i / pp + 1 - 1) * pp = pp * (i / pp) := by
    simp [Nat.mul_comm]
  rw [hd]
  have hm : i % pp < pp := Nat.mod_lt _ (by omega)
  have hdm : pp * (i / pp) + i % pp = i := Nat.div_add_mod i pp
  have hb : i % pp < ((l.drop (pp * (i / pp))).take pp).length := by
    rw [List.length_take, List.length_drop]
    omega
  have hv : ((l.drop (pp * (i / pp))).take pp)[i % pp] = x := by
    rw [List.getElem_take]
    rw [List.getElem_drop]
    simp only [hdm]
    exact hget
  exact hv ▸ List.getElem_mem hb

theorem applyName_age (data : UpdateReq) (p : Patient) : (applyName data p).age = p.age := by
  unfold applyName
  split
  · rfl
  · split <;> rfl

theorem applyName_contact (data : UpdateReq) (p : Patient) :
    (applyName data p).contact = p.contact := by
  unfold applyName
  split
  · rfl
  · split <;> rfl

theorem applyName_id (data : UpdateReq) (p : Patient) : (applyName data p).id = p.id := by
  unfold applyName
  split
  · rfl
  · split <;> rfl

theorem applyAge_contact (data : UpdateReq) (p : Patient) :
    (applyAge data p).contact = p.contact := by
  unfold applyAge
  split
  · rfl
  · split
    · rfl
    · split <;> rfl

theorem applyAge_id (data : UpdateReq) (p : Patient) : (applyAge data p).id = p.id := by
  unfold applyAge
  split
  · rfl
  · split
    · rfl
    · split <;> rfl

theorem applyContact_id (data : UpdateReq) (p : Patient) :
    (applyContact data p).id = p.id := by
  unfold applyContact
  split
  · rfl
  · split <;> rfl

/-- The name block, under its validation, mutates the draft exactly as
`applyName` and appends exactly `nameDelta`. -/
theorem step_name_eq (data : UpdateReq) (p : Patient) (cs : List Change)
    (hn : ∀ n, data.name = some n → 2 ≤ (pyStrip n).length) :
    step_name data (p, cs) = .ok (applyName data p, cs ++ nameDelta data p.name) := by
  unfold step_name applyName nameDelta
  rcases hdn : data.name with _ | n
  · simp
  · dsimp only
    have hl : ¬((pyStrip n).length < 2) := by
      have := hn n hdn
      omega
    rw [if_neg hl]
    by_cases he : p.name = pyStrip n
    · rw [if_neg (not_not_intro he)]
      simp [he]
    · rw [if_pos he]
      simp [he]

/-- The age block, under its validation, mutates the draft exactly as
`applyAge` and appends exactly `ageDelta`. -/
theorem step_age_eq (data : UpdateReq) (p : Patient) (cs : List Change)
    (ha : ∀ v, data.age = some v →
       ∃ a, pyIntVal v = some a ∧ MIN_PATIENT_AGE ≤ a ∧ a ≤ MAX_PATIENT_AGE) :
    step_age data (p, cs) = .ok (applyAge data p, cs ++ ageDelta data p.age) := by
  unfold step_age applyAge ageDelta
  rcases hda : data.age with _ | v
  · simp
  · dsimp only
    obtain ⟨a, hpa, h1, h2⟩ := ha v hda
    rw [hpa]
    dsimp only
    have hr : ¬((decide (a < MIN_PATIENT_AGE) || decide (a > MAX_PATIENT_AGE)) = true) := by
      simp only [Bool.or_eq_true, decide_eq_true_eq]
      omega
    rw [if_neg hr]
    by_cases he : p.age = a
    · rw [if_neg (not_not_intro he)]
      simp [he]
    · rw [if_pos he]
      simp [he]

/-- The contact block, under its validation, mutates the draft exactly
as `applyContact` and appends exactly `contactDelta`. -/
theorem step_contact_eq (data : UpdateReq) (p : Patient) (cs : List Change)
    (hc : ∀ c, data.contact = some c → 9 ≤ (pyStrip c).length) :
    step_contact data (p, cs) = .ok (applyContact data p, cs ++ contactDelta data p.contact) := by
  unfold step_contact applyContact contactDelta
  rcases hdc : data.contact with _ | c
  · simp
  · dsimp only
    have hl : ¬((pyStrip c).length < 9) := by
      have := hc c hdc
      omega
    rw [if_neg hl]
    by_cases he : p.contact = pyStrip c
    · rw [if_neg (not_not_intro he)]
      simp [he]
    · rw [if_pos he]
      simp [he]

/-- With all submitted fields valid, `update_fields` succeeds, the
draft is the three per-field assignments in sequence, and the recorded
delta is exactly the concatenation of the three per-field deltas, each
against the row's original value. -/
theorem update_fields_eq (data : UpdateReq) (p : Patient)
    (hn : ∀ n, data.name = some n → 2 ≤ (pyStrip n).length)
    (ha : ∀ v, data.age = some v →
       ∃ a, pyIntVal v = some a ∧ MIN_PATIENT_AGE ≤ a ∧ a ≤ MAX_PATIENT_AGE)
    (hc : ∀ c, data.contact = some c → 9 ≤ (pyStrip c).length) :
    update_fields data p = .ok (applyContact data (applyAge data (applyName data p)),
      nameDelta data p.name ++ ageDelta data p.age ++ contactDelta data p.contact) := by
  have h1 : update_fields data p =
      step_age data (applyName data p, [] ++ nameDelta data p.name) >>= step_contact data := by
    unfold update_fields
    rw [step_name_eq data p [] hn]
    rfl
  rw [h1, step_age_eq _ _ _ ha]
  have h2 : ((Except.ok (applyAge data (applyName data p),
      ([] ++ nameDelta data p.name) ++ ageDelta data (applyName data p).age) :
        Except ErrResp (Patient × List Change)) >>= step_contact data) =
      step_contact data (applyAge data (applyName data p),
        ([] ++ nameDelta data p.name) ++ ageDelta data (applyName data p).age) := rfl
  rw [h2, step_contact_eq _ _ _ hc, applyName_age, applyAge_contact, applyName_contact]
  simp

/-! ## Claim theorems -/

/-- Claim C1: the spec says `create patient` (with valid name and
contact) succeeds iff `0 ≤ a ≤ 150`, with `MIN_PATIENT_AGE = 0` in the
code's own configuration. The code's presence check `if not name or not
age or not contact` uses Python truthiness, so the in-range age `0`
submitted as a JSON number is rejected with the missing-fields error,
while the same age submitted as the string `"0"` is accepted; `-1` and
`151` both fail with the age-range error, as claimed. -/
theorem c1_create_age_zero_rejected :
    (create_patient "doc@x.com" ⟨some "Jo Lee", some (.int 0), some "0171234567"⟩
        emptyDb 5 false).fst = .error ⟨400, ERR_MISSING_FIELDS⟩ ∧
    (create_patient "doc@x.com" ⟨some "Jo Lee", some (.str "0"), some "0171234567"⟩
        emptyDb 5 false).fst = .ok ⟨1, "Jo Lee", 0, "0171234567", 5⟩ ∧
    (create_patient "doc@x.com" ⟨some "Jo Lee", some (.int (-1)), some "0171234567"⟩
        emptyDb 5 false).fst = .error ⟨400, "Age must be between 0 and 150"⟩ ∧
    (create_patient "doc@x.com" ⟨some "Jo Lee", some (.int 151), some "0171234567"⟩
        emptyDb 5 false).fst = .error ⟨400, "Age must be between 0 and 150"⟩ := by
  refine ⟨rfl, rfl, rfl, rfl⟩

/-- Claim C9: `log_audit` always returns normally to its caller — a
failure anywhere in its `try` block is swallowed, leaving the database
exactly as the already-committed primary mutation left it; in
particular the patients, users and records tables are never touched by
the audit append, failing or not. -/
theorem c9_log_audit_never_raises (fail : Bool) (db : DB) (et : String) (ei : Nat)
    (ac us : String) (now : Nat) (ch : Option AuditChanges) :
    log_audit fail db et ei ac us now ch =
      (if fail then db
       else { db with
          audit_logs := db.audit_logs ++ [⟨db.next_audit_id, et, ei, ac, us, now, ch⟩],
          next_audit_id := db.next_audit_id + 1 }) ∧
    (log_audit fail db et ei ac us now ch).patients = db.patients ∧
    (log_audit fail db et ei ac us now ch).users = db.users ∧
    (log_audit fail db et ei ac us now ch).records = db.records := by
  cases fail <;> exact ⟨rfl, rfl, rfl, rfl⟩

/-- Claim C7: with both login fields present and a well-formed email, a
failing password check yields `InvalidCredentials` no matter the
account's `is_active` flag, and `AccountInactive` is returned exactly
when the user is found, the password verifies, and the account is
inactive: the credentials check runs before the active check. -/
theorem c7_login_credentials_before_active (db : DB) (email password : String)
    (hem : email ≠ "") (hpw : password ≠ "") (hfmt : is_valid_email email = true) :
    (∀ u, db.users.find? (fun v => v.email == pyLower email) = some u →
       check_password u.password password = false →
       login ⟨some email, some password⟩ db = .error ⟨401, ERR_INVALID_CREDENTIALS⟩) ∧
    (login ⟨some email, some password⟩ db = .error ⟨401, ERR_ACCOUNT_INACTIVE⟩ ↔
       ∃ u, db.users.find? (fun v => v.email == pyLower email) = some u ∧
         check_password u.password password = true ∧ u.is_active = false) := by
  have hfirst : ∀ u, db.users.find? (fun v => v.email == pyLower email) = some u →
      check_password u.password password = false →
      login ⟨some email, some password⟩ db = .error ⟨401, ERR_INVALID_CREDENTIALS⟩ := by
    intro u h hc
    simp [login, truthyOptStr, hem, hpw, hfmt, h, hc]
  refine ⟨hfirst, ?_⟩
  rcases hfind : db.users.find? (fun v => v.email == pyLower email) with _ | u
  · simp [login, truthyOptStr, hem, hpw, hfmt, hfind,
      ERR_INVALID_CREDENTIALS, ERR_ACCOUNT_INACTIVE]
  · by_cases hcp : check_password u.password password
    · by_cases hact : u.is_active
      · simp [login, truthyOptStr, hem, hpw, hfmt, hfind, hcp, hact]
      · simp only [Bool.not_eq_true] at hact
        simp [login, truthyOptStr, hem, hpw, hfmt, hfind, hcp, hact]
    · simp only [Bool.not_eq_true] at hcp
      simp [login, truthyOptStr, hem, hpw, hfmt, hfind, hcp,
        ERR_INVALID_CREDENTIALS, ERR_ACCOUNT_INACTIVE]

/-- Claim C5: `restore_patient` on an id with no currently soft-deleted
row fails 404 with everything unchanged (no state change, no audit
entry); on a soft-deleted row it clears the three deletion fields,
stamps `updated_by`/`updated_at`, and appends exactly one RESTORE audit
entry (audit storage healthy). -/
theorem c5_restore_semantics (current_user : String) (id : Nat) (db : DB) (now : Nat)
    (af : Bool) :
    (db.patients.find? (fun p => p.id == id && p.is_deleted == true) = none →
      restore_patient current_user id db now af =
        (.error ⟨404, "Patient not found or not deleted"⟩, db)) ∧
    (∀ p, db.patients.find? (fun p => p.id == id && p.is_deleted == true) = some p →
      af = false →
      (restore_patient current_user id db now af).fst = .ok "Patient restored successfully" ∧
      (restore_patient current_user id db now af).snd.audit_logs = db.audit_logs ++
        [⟨db.next_audit_id, "patient", p.id, "RESTORE", current_user, now,
          some (.restoredAt now)⟩] ∧
      ∃ pf ∈ (restore_patient current_user id db now af).snd.patients,
        pf.id = p.id ∧ pf.is_deleted = false ∧ pf.deleted_at = none ∧ pf.deleted_by = none ∧
        pf.updated_by = some current_user ∧ pf.updated_at = now) := by
  constructor
  · intro h
    unfold restore_patient
    rw [h]
  · intro p hfind haf
    subst haf
    have hmem : p ∈ db.patients := List.mem_of_find?_eq_some hfind
    have e : restore_patient current_user id db now false =
        (.ok "Patient restored successfully",
         log_audit false
           (commitPatient db
             { p with is_deleted := false, deleted_at := none, deleted_by := none,
                      updated_by := some current_user, updated_at := now })
           "patient" p.id "RESTORE" current_user now (some (.restoredAt now))) := by
      unfold restore_patient
      rw [hfind]
    refine ⟨by rw [e], by rw [e]; rfl, ?_⟩
    refine ⟨{ p with is_deleted := false, deleted_at := none, deleted_by := none,
                     updated_by := some current_user, updated_at := now },
            ?_, rfl, rfl, rfl, rfl, rfl, rfl⟩
    rw [e]
    simp only [log_audit_patients, commitPatient]
    exact List.mem_map.mpr ⟨p, hmem, by simp⟩

/-- Claim C3: the soft-delete field invariant (`deleted_at` non-null iff
`is_deleted`, `deleted_by` non-null iff `is_deleted`) holds of every
patient row in any state satisfying it and is preserved by each of the
four mutating operations — create, update, soft delete, restore — so it
holds in every reachable state. -/
theorem c3_soft_delete_invariant (db : DB) (hdb : db.delInv) (user : String) (id : Nat)
    (now : Nat) (af : Bool) (cr : CreateReq) (ur : UpdateReq) :
    (create_patient user cr db now af).snd.delInv ∧
    (update_patient user id ur db now af).snd.delInv ∧
    (delete_patient user id db now af).snd.delInv ∧
    (restore_patient user id db now af).snd.delInv := by
  refine ⟨?_, ?_, ?_, ?_⟩
  · rcases create_patient_patients user cr db now af with h | ⟨nm, ag, ct, h⟩
    · intro q hq
      rw [h] at hq
      exact hdb q hq
    · intro q hq
      rw [h] at hq
      rcases List.mem_append.1 hq with hq | hq
      · exact hdb q hq
      · rw [List.mem_singleton.1 hq]
        unfold Patient.delInv
        simp
  · rcases hf : db.patients.find? (fun q => q.id == id && q.is_deleted == false) with _ | p
    · intro q hq
      unfold update_patient at hq
      rw [hf] at hq
      exact hdb q hq
    · rcases hu : update_fields ur p with e | ⟨pd, cs⟩
      · intro q hq
        unfold update_patient at hq
        rw [hf] at hq
        dsimp only at hq
        rw [hu] at hq
        exact hdb q hq
      · obtain ⟨d1, d2, d3, -⟩ := update_fields_del ur p (pd, cs) hu
        have e1 : pd.is_deleted = p.is_deleted := d1
        have e2 : pd.deleted_at = p.deleted_at := d2
        have e3 : pd.deleted_by = p.deleted_by := d3
        have hpf : Patient.delInv { pd with updated_by := some user, updated_at := now } := by
          unfold Patient.delInv
          dsimp only
          rw [e1, e2, e3]
          exact hdb p (List.mem_of_find?_eq_some hf)
        have ec : (update_patient user id ur db now af).snd =
            (if cs.isEmpty then
               commitPatient db { pd with updated_by := some user, updated_at := now }
             else
               log_audit af
                 (commitPatient db { pd with updated_by := some user, updated_at := now })
                 "patient" ({ pd with updated_by := some user, updated_at := now } : Patient).id
                 "UPDATE" user now (some (.delta cs))) := by
          unfold update_patient
          rw [hf]
          dsimp only
          rw [hu]
        rw [ec]
        split
        · exact commit_delInv db hdb _ hpf
        · intro q hq
          rw [log_audit_patients] at hq
          exact commit_delInv db hdb _ hpf q hq
  · rcases hf : db.patients.find? (fun q => q.id == id && q.is_deleted == false) with _ | p
    · intro q hq
      unfold delete_patient at hq
      rw [hf] at hq
      exact hdb q hq
    · have hpf : Patient.delInv
          { p with is_deleted := true, deleted_at := some now, deleted_by := some user } := by
        unfold Patient.delInv
        simp
      intro q hq
      unfold delete_patient at hq
      rw [hf] at hq
      dsimp only at hq
      rw [log_audit_patients] at hq
      exact commit_delInv db hdb _ hpf q hq
  · rcases hf : db.patients.find? (fun q => q.id == id && q.is_deleted == true) with _ | p
    · intro q hq
      unfold restore_patient at hq
      rw [hf] at hq
      exact hdb q hq
    · have hpf : Patient.delInv
          { p with is_deleted := false, deleted_at := none, deleted_by := none,
                   updated_by := some user, updated_at := now } := by
        unfold Patient.delInv
        simp
      intro q hq
      unfold restore_patient at hq
      rw [hf] at hq
      dsimp only at hq
      rw [log_audit_patients] at hq
      exact commit_delInv db hdb _ hpf q hq

/-- Counterexample to C2 as stated: `"A@x.com"` is case-insensitively
equal to the stored (lower-cased) `"a@x.com"`, yet registration does not
return the duplicate-email error — the pre-check compares the raw
submitted email, misses the stored row, and the insert dies on the
unique constraint, reported as a generic 500; no new user is created. -/
theorem c2_counterexample :
    pyLower "A@x.com" = pyLower sampleUser.email ∧
    sampleUser ∈ sampleUserDb.users ∧
    (register ⟨some "Bo Lin", some "A@x.com", some "bo", some "secret1", some "doctor", none⟩
        sampleUserDb).fst = .error ⟨500, "Failed to register user. Please try again."⟩ ∧
    (⟨500, "Failed to register user. Please try again."⟩ : ErrResp) ≠ ⟨400, ERR_EMAIL_EXISTS⟩ ∧
    (register ⟨some "Bo Lin", some "A@x.com", some "bo", some "secret1", some "doctor", none⟩
        sampleUserDb).snd = sampleUserDb := by
  refine ⟨rfl, by decide, rfl, by decide, rfl⟩

/-- Claim C2 (amended): for an otherwise-valid registration attempt
whose email is case-insensitively equal to a stored user's email (the
store holding lower-cased emails, as `register` writes them), no new
user is ever created; the error is `DuplicateEmail` when the submitted
email is already lower-cased (then the raw-email pre-check hits), and
the generic 500 registration failure from the unique constraint when it
differs in case (the pre-check misses). -/
theorem c2_register_duplicate_email (db : DB) (req : RegisterReq)
    (fname email username password role : String)
    (hfe : req.full_name = some fname) (hee : req.email = some email)
    (hue : req.username = some username) (hpe : req.password = some password)
    (hre : req.role = some role)
    (hfne : fname ≠ "") (hene : email ≠ "") (hune : username ≠ "")
    (hpne : password ≠ "") (hrne : role ≠ "")
    (hfmt : is_valid_email email = true)
    (hplen : MIN_PASSWORD_LENGTH ≤ password.length)
    (hrole : ALLOWED_ROLES.contains (pyLower role) = true)
    (husr : ∀ v ∈ db.users, v.username ≠ username)
    (hnorm : ∀ v ∈ db.users, pyLower v.email = v.email)
    (u : User) (hmem : u ∈ db.users) (hdup : u.email = pyLower email) :
    (register req db).snd = db ∧
    (pyLower email = email → (register req db).fst = .error ⟨400, ERR_EMAIL_EXISTS⟩) ∧
    (pyLower email ≠ email →
      (register req db).fst = .error ⟨500, "Failed to register user. Please try again."⟩) := by
  have hpl2 : ¬(password.length < MIN_PASSWORD_LENGTH) := Nat.not_lt.2 hplen
  have hrole2 : pyLower role ∈ ALLOWED_ROLES := by simpa using hrole
  have hfindu : db.users.find? (fun v => v.username == username) = none := by
    rw [List.find?_eq_none]
    intro v hv
    simpa using husr v hv
  by_cases hcase : pyLower email = email
  · have hfinde : (db.users.find? (fun v => v.email == email)).isSome := by
      rw [List.find?_isSome]
      exact ⟨u, hmem, by simp [hdup, hcase]⟩
    have hres : register req db = (.error ⟨400, ERR_EMAIL_EXISTS⟩, db) := by
      simp [register, truthyOptStr, hfe, hee, hue, hpe, hre, hfne, hene, hune, hpne, hrne,
        hfmt, hpl2, hrole2, hfindu, hfinde]
    rw [hres]
    exact ⟨rfl, fun _ => rfl, fun hc => absurd hcase hc⟩
  · have hfinde : db.users.find? (fun v => v.email == email) = none := by
      rw [List.find?_eq_none]
      intro v hv
      simp only [beq_iff_eq]
      intro hveq
      exact hcase (by rw [← hveq]; exact hnorm v hv)
    have hany : db.users.any
        (fun v => v.email == pyLower email || v.username == username) = true := by
      rw [List.any_eq_true]
      exact ⟨u, hmem, by simp [hdup]⟩
    have hres : register req db =
        (.error ⟨500, "Failed to register user. Please try again."⟩, db) := by
      simp [register, truthyOptStr, hfe, hee, hue, hpe, hre, hfne, hene, hune, hpne, hrne,
        hfmt, hpl2, hrole2, hfindu, hfinde, hany]
    rw [hres]
    exact ⟨rfl, fun hc => absurd hc hcase, fun _ => rfl⟩

/-- Witness for C2 (amended): the concrete case-differing duplicate from
the counterexample satisfies all the hypotheses, and a lower-cased
duplicate of the same stored user yields the duplicate-email error. -/
theorem c2_register_duplicate_email_witness :
    (("Bo Lin" : String) ≠ "" ∧ ("A@x.com" : String) ≠ "" ∧ ("bo" : String) ≠ "" ∧
     ("secret1" : String) ≠ "" ∧ ("doctor" : String) ≠ "" ∧
     is_valid_email "A@x.com" = true ∧
     MIN_PASSWORD_LENGTH ≤ ("secret1" : String).length ∧
     ALLOWED_ROLES.contains (pyLower "doctor") = true ∧
     (∀ v ∈ sampleUserDb.users, v.username ≠ "bo") ∧
     (∀ v ∈ sampleUserDb.users, pyLower v.email = v.email) ∧
     sampleUser ∈ sampleUserDb.users ∧ sampleUser.email = pyLower "A@x.com") ∧
    ((register ⟨some "Bo Lin", some "A@x.com", some "bo", some "secret1", some "doctor", none⟩
        sampleUserDb).snd = sampleUserDb ∧
     (pyLower "A@x.com" = "A@x.com" →
       (register ⟨some "Bo Lin", some "A@x.com", some "bo", some "secret1", some "doctor", none⟩
         sampleUserDb).fst = .error ⟨400, ERR_EMAIL_EXISTS⟩) ∧
     (pyLower "A@x.com" ≠ "A@x.com" →
       (register ⟨some "Bo Lin", some "A@x.com", some "bo", some "secret1", some "doctor", none⟩
         sampleUserDb).fst = .error ⟨500, "Failed to register user. Please try again."⟩)) :=
  ⟨⟨by decide, by decide, by decide, by decide, by decide, by decide, by decide, by decide,
    by decide, by decide, by decide, by decide⟩,
   c2_register_duplicate_email sampleUserDb
     ⟨some "Bo Lin", some "A@x.com", some "bo", some "secret1", some "doctor", none⟩
     "Bo Lin" "A@x.com" "bo" "secret1" "doctor" rfl rfl rfl rfl rfl
     (by decide) (by decide) (by decide) (by decide) (by decide) (by decide) (by decide)
     (by decide) (by decide) (by decide) sampleUser (by decide) (by decide)⟩

/-- Witness for C3: the sample store satisfies the invariant, so all
four operations applied to it do too. -/
theorem c3_soft_delete_invariant_witness :
    samplePatientsDb.delInv ∧
    ((create_patient "admin@x.com" ⟨some "Kay Orr", some (.int 25), some "0331112222"⟩
        samplePatientsDb 11 false).snd.delInv ∧
     (update_patient "admin@x.com" 2 ⟨some "Jo A Lee", none, none⟩
        samplePatientsDb 11 false).snd.delInv ∧
     (delete_patient "admin@x.com" 2 samplePatientsDb 11 false).snd.delInv ∧
     (restore_patient "admin@x.com" 2 samplePatientsDb 11 false).snd.delInv) :=
  ⟨by unfold DB.delInv Patient.delInv; decide,
   c3_soft_delete_invariant samplePatientsDb (by unfold DB.delInv Patient.delInv; decide)
     "admin@x.com" 2 11 false ⟨some "Kay Orr", some (.int 25), some "0331112222"⟩
     ⟨some "Jo A Lee", none, none⟩⟩

/-- Claim C6: a soft-deleted patient is invisible to `get_patient`
(404) and to every page of the listing without `include_deleted`, while
the listing with `include_deleted=true` (empty search) has a page
carrying it with `is_deleted` reported as true. -/
theorem c6_soft_deleted_listing (db : DB) (p : Patient)
    (hmem : p ∈ db.patients) (hdel : p.is_deleted = true)
    (hids : (db.patients.map Patient.id).Nodup) (per_page : Nat) (hpp : 1 ≤ per_page) :
    get_patient db p.id = .error ⟨404, ERR_PATIENT_NOT_FOUND⟩ ∧
    (∀ page pp search e, e ∈ (get_patients db page pp search false).fst → e.id ≠ p.id) ∧
    (∃ page, 1 ≤ page ∧ ∃ e ∈ (get_patients db page per_page "" true).fst,
       e.id = p.id ∧ e.is_deleted = true) := by
  refine ⟨?_, ?_, ?_⟩
  · unfold get_patient
    rw [find_active_none db p hmem hdel hids]
  · intro page pp search e he
    unfold get_patients at he
    dsimp only at he
    obtain ⟨q0, hq0, rfl⟩ := List.mem_map.1 he
    have h2 := List.mem_of_mem_drop (List.mem_of_mem_take hq0)
    have h3 : q0 ∈ db.patients.filter (fun r => r.is_deleted == false) := by
      split at h2
      · exact h2
      · exact (List.mem_filter.1 h2).1
    obtain ⟨h4, h5⟩ := List.mem_filter.1 h3
    simp only [beq_iff_eq] at h5
    intro heq
    have h6 : q0 = p := List.inj_on_of_nodup_map hids h4 hmem heq
    rw [h6, hdel] at h5
    cases h5
  · have hpp2 : 1 ≤ min per_page 100 := by omega
    obtain ⟨pg, hpg, hmem2⟩ := mem_take_drop_cover p db.patients (min per_page 100) hpp2 hmem
    refine ⟨pg, hpg, toListItem p, ?_, rfl, hdel⟩
    have hmax : max pg 1 = pg := Nat.max_eq_left hpg
    unfold get_patients
    dsimp only
    rw [hmax]
    exact List.mem_map.2 ⟨p, hmem2, rfl⟩

/-- Witness for C6: in the sample store, the soft-deleted patient (id 2)
is hidden from `get_patient` and the default listing, yet appears with
`is_deleted=true` when `include_deleted=true` (per_page 10). -/
theorem c6_soft_deleted_listing_witness :
    (sampleDeleted ∈ samplePatientsDb.patients ∧ sampleDeleted.is_deleted = true ∧
     (samplePatientsDb.patients.map Patient.id).Nodup ∧ 1 ≤ 10) ∧
    (get_patient samplePatientsDb sampleDeleted.id = .error ⟨404, ERR_PATIENT_NOT_FOUND⟩ ∧
     (∀ page pp search e, e ∈ (get_patients samplePatientsDb page pp search false).fst →
        e.id ≠ sampleDeleted.id) ∧
     (∃ page, 1 ≤ page ∧ ∃ e ∈ (get_patients samplePatientsDb page 10 "" true).fst,
        e.id = sampleDeleted.id ∧ e.is_deleted = true)) :=
  ⟨⟨by decide, by decide, by decide, by decide⟩,
   c6_soft_deleted_listing samplePatientsDb sampleDeleted (by decide) (by decide) (by decide)
     10 (by decide)⟩

/-- Claim C10: the audit-log listing's existence check is a primary-key
lookup with no `is_deleted` filter, so for a soft-deleted patient it
succeeds and returns exactly that patient's audit entries, while
`get_patient` and `get_medical_records` answer 404 for the same id. -/
theorem c10_audit_logs_ignore_soft_delete (db : DB) (p : Patient)
    (hmem : p ∈ db.patients) (hdel : p.is_deleted = true)
    (hids : (db.patients.map Patient.id).Nodup) :
    (∃ payload, get_patient_audit_logs db p.id = .ok payload ∧
       payload.patient_id = p.id ∧
       ∀ item, item ∈ payload.audit_logs ↔
         ∃ l ∈ db.audit_logs, l.entity_type = "patient" ∧ l.entity_id = p.id ∧
           item = ⟨l.id, l.action, l.user_email, l.timestamp, l.changes⟩) ∧
    get_patient db p.id = .error ⟨404, ERR_PATIENT_NOT_FOUND⟩ ∧
    get_medical_records db p.id = .error ⟨404, ERR_PATIENT_NOT_FOUND⟩ := by
  refine ⟨?_, ?_, ?_⟩
  · rcases hq : db.patients.find? (fun q => q.id == p.id) with _ | q
    · rw [List.find?_eq_none] at hq
      exact absurd (by simp) (hq p hmem)
    · have e : get_patient_audit_logs db p.id =
          .ok ⟨p.id, (sortByKeyDesc (fun l => l.timestamp)
            (db.audit_logs.filter
              (fun l => l.entity_type == "patient" && l.entity_id == p.id))).map
            (fun l => ⟨l.id, l.action, l.user_email, l.timestamp, l.changes⟩)⟩ := by
        unfold get_patient_audit_logs
        rw [hq]
      refine ⟨_, e, rfl, ?_⟩
      intro item
      constructor
      · intro hit
        obtain ⟨l, hl, rfl⟩ := List.mem_map.1 hit
        rw [mem_sortByKeyDesc] at hl
        obtain ⟨hl1, hl2⟩ := List.mem_filter.1 hl
        simp only [Bool.and_eq_true, beq_iff_eq] at hl2
        exact ⟨l, hl1, hl2.1, hl2.2, rfl⟩
      · rintro ⟨l, hl, h1, h2, rfl⟩
        exact List.mem_map.2
          ⟨l, (mem_sortByKeyDesc _ _ _).2 (List.mem_filter.2 ⟨hl, by simp [h1, h2]⟩), rfl⟩
  · unfold get_patient
    rw [find_active_none db p hmem hdel hids]
  · unfold get_medical_records
    rw [find_active_none db p hmem hdel hids]

/-- Witness for C10: in the sample store, the soft-deleted patient's
audit listing succeeds (it holds the DELETE entry), while the two
filtered endpoints answer 404. -/
theorem c10_audit_logs_ignore_soft_delete_witness :
    (sampleDeleted ∈ samplePatientsDb.patients ∧ sampleDeleted.is_deleted = true ∧
     (samplePatientsDb.patients.map Patient.id).Nodup) ∧
    ((∃ payload, get_patient_audit_logs samplePatientsDb sampleDeleted.id = .ok payload ∧
        payload.patient_id = sampleDeleted.id ∧
        ∀ item, item ∈ payload.audit_logs ↔
          ∃ l ∈ samplePatientsDb.audit_logs, l.entity_type = "patient" ∧
            l.entity_id = sampleDeleted.id ∧
            item = ⟨l.id, l.action, l.user_email, l.timestamp, l.changes⟩) ∧
     get_patient samplePatientsDb sampleDeleted.id = .error ⟨404, ERR_PATIENT_NOT_FOUND⟩ ∧
     get_medical_records samplePatientsDb sampleDeleted.id =
       .error ⟨404, ERR_PATIENT_NOT_FOUND⟩) :=
  ⟨⟨by decide, by decide, by decide⟩,
   c10_audit_logs_ignore_soft_delete samplePatientsDb sampleDeleted
     (by decide) (by decide) (by decide)⟩

/-- Claim C4: for an existing non-deleted patient and valid submitted
fields, the recorded delta is exactly the concatenation of the
per-field deltas — one entry per submitted field whose new value
differs from the current one, nothing for unchanged or unsubmitted
fields; `updated_by`/`updated_at` are stamped even when the delta is
empty; and an UPDATE audit entry is appended iff the delta is non-empty
(audit storage healthy). -/
theorem c4_update_delta_semantics (current_user : String) (id : Nat) (data : UpdateReq)
    (db : DB) (now : Nat) (p : Patient)
    (hfind : db.patients.find? (fun q => q.id == id && q.is_deleted == false) = some p)
    (hn : ∀ n, data.name = some n → 2 ≤ (pyStrip n).length)
    (ha : ∀ v, data.age = some v →
       ∃ a, pyIntVal v = some a ∧ MIN_PATIENT_AGE ≤ a ∧ a ≤ MAX_PATIENT_AGE)
    (hc : ∀ c, data.contact = some c → 9 ≤ (pyStrip c).length) :
    update_fields data p = .ok (applyContact data (applyAge data (applyName data p)),
      nameDelta data p.name ++ ageDelta data p.age ++ contactDelta data p.contact) ∧
    (∃ pf ∈ (update_patient current_user id data db now false).snd.patients,
       pf.id = p.id ∧ pf.updated_by = some current_user ∧ pf.updated_at = now) ∧
    (update_patient current_user id data db now false).snd.audit_logs =
      db.audit_logs ++
      (if (nameDelta data p.name ++ ageDelta data p.age ++ contactDelta data p.contact).isEmpty
       then []
       else [⟨db.next_audit_id, "patient", p.id, "UPDATE", current_user, now,
         some (.delta (nameDelta data p.name ++ ageDelta data p.age ++
           contactDelta data p.contact))⟩]) := by
  have hm := update_fields_eq data p hn ha hc
  have hid : (applyContact data (applyAge data (applyName data p))).id = p.id := by
    rw [applyContact_id, applyAge_id, applyName_id]
  have hpmem : p ∈ db.patients := List.mem_of_find?_eq_some hfind
  have e : (update_patient current_user id data db now false).snd =
      (if (nameDelta data p.name ++ ageDelta data p.age ++
            contactDelta data p.contact).isEmpty
       then commitPatient db
         { applyContact data (applyAge data (applyName data p)) with
             updated_by := some current_user, updated_at := now }
       else log_audit false
         (commitPatient db
           { applyContact data (applyAge data (applyName data p)) with
               updated_by := some current_user, updated_at := now })
         "patient"
         ({ applyContact data (applyAge data (applyName data p)) with
              updated_by := some current_user, updated_at := now } : Patient).id
         "UPDATE" current_user now
         (some (.delta (nameDelta data p.name ++ ageDelta data p.age ++
            contactDelta data p.contact)))) := by
    unfold update_patient
    rw [hfind]
    dsimp only
    rw [hm]
  refine ⟨hm, ?_, ?_⟩
  · refine ⟨{ applyContact data (applyAge data (applyName data p)) with
                updated_by := some current_user, updated_at := now },
            ?_, hid, rfl, rfl⟩
    rw [e]
    split
    · simp only [commitPatient]
      exact List.mem_map.2 ⟨p, hpmem, by simp [hid]⟩
    · rw [log_audit_patients]
      simp only [commitPatient]
      exact List.mem_map.2 ⟨p, hpmem, by simp [hid]⟩
  · rw [e]
    split
    · simp [commitPatient]
    · rw [log_audit_false_eq]
      simp [commitPatient, hid]

/-- Witness for C4: updating the sample active patient, resubmitting the
unchanged name `"Jo Lee"` and setting the age to its current value 34
(contact absent): the delta is empty, the stamps still land, and no
UPDATE entry is appended. -/
theorem c4_update_delta_semantics_witness :
    (samplePatientsDb.patients.find? (fun q => q.id == 1 && q.is_deleted == false) =
       some samplePatient) ∧
    (update_fields ⟨some "Jo Lee", some (.int 34), none⟩ samplePatient =
       .ok (applyContact ⟨some "Jo Lee", some (.int 34), none⟩
              (applyAge ⟨some "Jo Lee", some (.int 34), none⟩
                (applyName ⟨some "Jo Lee", some (.int 34), none⟩ samplePatient)),
            nameDelta ⟨some "Jo Lee", some (.int 34), none⟩ samplePatient.name ++
            ageDelta ⟨some "Jo Lee", some (.int 34), none⟩ samplePatient.age ++
            contactDelta ⟨some "Jo Lee", some (.int 34), none⟩ samplePatient.contact) ∧
     (∃ pf ∈ (update_patient "doc@x.com" 1 ⟨some "Jo Lee", some (.int 34), none⟩
          samplePatientsDb 12 false).snd.patients,
        pf.id = samplePatient.id ∧ pf.updated_by = some "doc@x.com" ∧ pf.updated_at = 12) ∧
     (update_patient "doc@x.com" 1 ⟨some "Jo Lee", some (.int 34), none⟩
        samplePatientsDb 12 false).snd.audit_logs =
       samplePatientsDb.audit_logs ++
       (if (nameDelta ⟨some "Jo Lee", some (.int 34), none⟩ samplePatient.name ++
            ageDelta ⟨some "Jo Lee", some (.int 34), none⟩ samplePatient.age ++
            contactDelta ⟨some "Jo Lee", some (.int 34), none⟩ samplePatient.contact).isEmpty
        then []
        else [⟨samplePatientsDb.next_audit_id, "patient", samplePatient.id, "UPDATE",
          "doc@x.com", 12, some (.delta (nameDelta ⟨some "Jo Lee", some (.int 34), none⟩
              samplePatient.name ++
            ageDelta ⟨some "Jo Lee", some (.int 34), none⟩ samplePatient.age ++
            contactDelta ⟨some "Jo Lee", some (.int 34), none⟩ samplePatient.contact))⟩])) :=
  ⟨by decide,
   c4_update_delta_semantics "doc@x.com" 1 ⟨some "Jo Lee", some (.int 34), none⟩
     samplePatientsDb 12 samplePatient (by decide)
     (fun n hn => by injection hn with h; subst h; decide)
     (fun v hv => by injection hv with h; subst h; exact ⟨34, rfl, by decide, by decide⟩)
     (fun c hc => by cases hc)⟩

/-- Claim C8: whenever some submitted field of an update request fails
validation — a too-short name, an unparsable or out-of-range age, or a
too-short contact — the route returns the error with the database
exactly as before: the partially mutated draft (earlier fields may
already have been applied to it) is never committed. -/
theorem c8_update_invalid_field_atomic (current_user : String) (id : Nat)
    (data : UpdateReq) (db : DB) (now : Nat) (af : Bool) (p : Patient)
    (hfind : db.patients.find? (fun q => q.id == id && q.is_deleted == false) = some p)
    (hbad : (∃ n, data.name = some n ∧ (pyStrip n).length < 2) ∨
            (∃ v, data.age = some v ∧ (pyIntVal v = none ∨
               ∃ a, pyIntVal v = some a ∧ (a < MIN_PATIENT_AGE ∨ a > MAX_PATIENT_AGE))) ∨
            (∃ c, data.contact = some c ∧ (pyStrip c).length < 9)) :
    ∃ e, update_patient current_user id data db now af = (.error e, db) := by
  rcases huf : update_fields data p with e | r
  · refine ⟨e, ?_⟩
    unfold update_patient
    rw [hfind]
    dsimp only
    rw [huf]
  · exfalso
    unfold update_fields at huf
    obtain ⟨y, hy, hcon⟩ := except_bind_ok _ _ _ huf
    obtain ⟨x, hx, hag⟩ := except_bind_ok _ _ _ hy
    rcases hbad with ⟨n, hn, hlen⟩ | ⟨v, hv, hbadage⟩ | ⟨c, hcs, hlen⟩
    · unfold step_name at hx
      rw [hn] at hx
      dsimp only at hx
      rw [if_pos hlen] at hx
      cases hx
    · obtain ⟨x1, x2⟩ := x
      unfold step_age at hag
      rw [hv] at hag
      dsimp only at hag
      rcases hbadage with hnone | ⟨a, hpa, hrange⟩
      · rw [hnone] at hag
        cases hag
      · rw [hpa] at hag
        dsimp only at hag
        have hcond : (decide (a < MIN_PATIENT_AGE) || decide (a > MAX_PATIENT_AGE)) = true := by
          rcases hrange with h | h <;> simp [h]
        rw [if_pos hcond] at hag
        cases hag
    · obtain ⟨y1, y2⟩ := y
      unfold step_contact at hcon
      rw [hcs] at hcon
      dsimp only at hcon
      rw [if_pos hlen] at hcon
      cases hcon

/-- Witness for C8: on the sample active patient, a request with the
valid name `"Jo Lee"` and valid age 40 followed by the invalid contact
`"123"` yields an error and leaves the store untouched. -/
theorem c8_update_invalid_field_atomic_witness :
    (samplePatientsDb.patients.find? (fun q => q.id == 1 && q.is_deleted == false) =
       some samplePatient) ∧
    ((∃ n, (⟨some "Jo Lee", some (.int 40), some "123"⟩ : UpdateReq).name = some n ∧
        (pyStrip n).length < 2) ∨
     (∃ v, (⟨some "Jo Lee", some (.int 40), some "123"⟩ : UpdateReq).age = some v ∧
        (pyIntVal v = none ∨
          ∃ a, pyIntVal v = some a ∧ (a < MIN_PATIENT_AGE ∨ a > MAX_PATIENT_AGE))) ∨
     (∃ c, (⟨some "Jo Lee", some (.int 40), some "123"⟩ : UpdateReq).contact = some c ∧
        (pyStrip c).length < 9)) ∧
    (∃ e, update_patient "doc@x.com" 1 ⟨some "Jo Lee", some (.int 40), some "123"⟩
       samplePatientsDb 12 false = (.error e, samplePatientsDb)) :=
  ⟨by decide, Or.inr (Or.inr ⟨"123", rfl, by decide⟩),
   c8_update_invalid_field_atomic "doc@x.com" 1 ⟨some "Jo Lee", some (.int 40), some "123"⟩
     samplePatientsDb 12 false samplePatient (by decide)
     (Or.inr (Or.inr ⟨"123", rfl, by decide⟩))⟩

/-- Witness for C5: in the sample store, restoring the active patient
(id 1) fails 404 leaving everything unchanged, and restoring the
soft-deleted patient (id 2) succeeds with the stated effects. -/
theorem c5_restore_witness :
    (samplePatientsDb.patients.find? (fun p => p.id == 1 && p.is_deleted == true) = none ∧
     restore_patient "admin@x.com" 1 samplePatientsDb 9 false =
       (.error ⟨404, "Patient not found or not deleted"⟩, samplePatientsDb)) ∧
    (samplePatientsDb.patients.find? (fun p => p.id == 2 && p.is_deleted == true) =
       some sampleDeleted ∧
     (restore_patient "admin@x.com" 2 samplePatientsDb 9 false).fst =
       .ok "Patient restored successfully" ∧
     (restore_patient "admin@x.com" 2 samplePatientsDb 9 false).snd.audit_logs =
       samplePatientsDb.audit_logs ++
       [⟨samplePatientsDb.next_audit_id, "patient", sampleDeleted.id, "RESTORE", "admin@x.com",
         9, some (.restoredAt 9)⟩] ∧
     ∃ pf ∈ (restore_patient "admin@x.com" 2 samplePatientsDb 9 false).snd.patients,
       pf.id = sampleDeleted.id ∧ pf.is_deleted = false ∧ pf.deleted_at = none ∧
       pf.deleted_by = none ∧ pf.updated_by = some "admin@x.com" ∧ pf.updated_at = 9) :=
  ⟨⟨by decide,
    (c5_restore_semantics "admin@x.com" 1 samplePatientsDb 9 false).1 (by decide)⟩,
   ⟨by decide,
    (c5_restore_semantics "admin@x.com" 2 samplePatientsDb 9 false).2 sampleDeleted
      (by decide) rfl⟩⟩

/-- Witness for C7: a concrete store with one inactive user; a wrong
password reports invalid credentials, not an inactive account, and the
inactive-account error arises exactly for the correct password. -/
theorem c7_login_witness :
    ("a@x.com" : String) ≠ "" ∧ ("wrong66" : String) ≠ "" ∧
    is_valid_email "a@x.com" = true ∧
    ((∀ u, inactiveUserDb.users.find? (fun v => v.email == pyLower "a@x.com") = some u →
       check_password u.password "wrong66" = false →
       login ⟨some "a@x.com", some "wrong66"⟩ inactiveUserDb =
         .error ⟨401, ERR_INVALID_CREDENTIALS⟩) ∧
     (login ⟨some "a@x.com", some "wrong66"⟩ inactiveUserDb =
         .error ⟨401, ERR_ACCOUNT_INACTIVE⟩ ↔
       ∃ u, inactiveUserDb.users.find? (fun v => v.email == pyLower "a@x.com") = some u ∧
         check_password u.password "wrong66" = true ∧ u.is_active = false)) :=
  ⟨by decide, by decide, by decide,
   c7_login_credentials_before_active inactiveUserDb "a@x.com" "wrong66"
     (by decide) (by decide) (by decide)⟩

end PatientService
